import Mathlib

/-!
Verification of the Hermes bytecode file format header
(`include/hermes/BCGen/HBC/BytecodeFileFormat.h`).

Machine integers are modelled as `Nat` with explicit `% 2^w` at every point
where the C++ code stores into a fixed-width field or performs fixed-width
arithmetic.  Bit-field records become structures of `Nat` fields carrying the
contents of each bit-field; storing into a `w`-bit field truncates mod `2^w`.
-/

namespace HermesBC

/-- "Hermes" in ancient Greek encoded in UTF-16BE and truncated to 8 bytes
(`const static uint64_t MAGIC`). -/
def MAGIC : Nat := 0x1F1903C103BC1FC6

/-- `DELTA_MAGIC = ~MAGIC` on `uint64_t`: bitwise complement, i.e. xor with
the all-ones 64-bit mask. -/
def DELTA_MAGIC : Nat := MAGIC ^^^ (2 ^ 64 - 1)

/-- `BYTECODE_VERSION` generated by this version of the compiler. -/
def BYTECODE_VERSION : Nat := 41

/-- Bytecode forms (`enum class BytecodeForm`). -/
inductive BytecodeForm where
  | Execution
  | Delta
deriving DecidableEq

/-- The magic constant a buffer of the given expected form must begin with. -/
def expectedMagic : BytecodeForm → Nat
  | .Execution => MAGIC
  | .Delta => DELTA_MAGIC

/-- `union FunctionHeaderFlag`: four one-bit flags in one byte. -/
structure FunctionHeaderFlag where
  strictMode : Bool
  hasExceptionHandler : Bool
  hasDebugInfo : Bool
  overflowed : Bool
deriving DecidableEq

/-- `FunctionHeaderFlag()` default constructor: `flags = 0`, all bits clear. -/
def FunctionHeaderFlag.init : FunctionHeaderFlag :=
  ⟨false, false, false, false⟩

/-- `struct FunctionHeader`: the full-width (api type) function metadata.
Field order and api types follow `FUNC_HEADER_FIELDS`: all fields are
`uint32_t` except the two cache indices which are `uint8_t`. -/
structure FunctionHeader where
  offset : Nat
  paramCount : Nat
  bytecodeSizeInBytes : Nat
  functionName : Nat
  infoOffset : Nat
  frameSize : Nat
  environmentSize : Nat
  highestReadCacheIndex : Nat
  highestWriteCacheIndex : Nat
  flags : FunctionHeaderFlag
deriving DecidableEq

/-- The public `FunctionHeader` constructor: takes no offset, no infoOffset
and no flags; `offset` and `infoOffset` are zero-initialised and `flags{}` is
default-initialised to all-clear.  `uint32_t` parameters are truncated mod
`2^32`, `uint8_t` parameters mod `2^8`. -/
def FunctionHeader.make (size paramCount frameSize envSize functionNameID
    hiRCacheIndex hiWCacheIndex : Nat) : FunctionHeader :=
  { offset := 0
    paramCount := paramCount % 2 ^ 32
    bytecodeSizeInBytes := size % 2 ^ 32
    functionName := functionNameID % 2 ^ 32
    infoOffset := 0
    frameSize := frameSize % 2 ^ 32
    environmentSize := envSize % 2 ^ 32
    highestReadCacheIndex := hiRCacheIndex % 2 ^ 8
    highestWriteCacheIndex := hiWCacheIndex % 2 ^ 8
    flags := FunctionHeaderFlag.init }

/-- `struct SmallFuncHeader`: the bit-packed compact function header.  Each
field holds the contents of the bit-field of the width given by
`FUNC_HEADER_FIELDS` (offset 25, paramCount 7, bytecodeSizeInBytes 15,
functionName 17, infoOffset 25, frameSize 7, environmentSize 8,
highestReadCacheIndex 8, highestWriteCacheIndex 8). -/
structure SmallFuncHeader where
  offset : Nat
  paramCount : Nat
  bytecodeSizeInBytes : Nat
  functionName : Nat
  infoOffset : Nat
  frameSize : Nat
  environmentSize : Nat
  highestReadCacheIndex : Nat
  highestWriteCacheIndex : Nat
  flags : FunctionHeaderFlag
deriving DecidableEq

/-- The `memset(this, 0, sizeof(SmallFuncHeader))` state: every bit-field and
every flag bit zero. -/
def SmallFuncHeader.zeroed : SmallFuncHeader :=
  { offset := 0, paramCount := 0, bytecodeSizeInBytes := 0, functionName := 0
    infoOffset := 0, frameSize := 0, environmentSize := 0
    highestReadCacheIndex := 0, highestWriteCacheIndex := 0
    flags := FunctionHeaderFlag.init }

/-- `SmallFuncHeader::setLargeHeaderOffset`: sets the overflowed flag and
stores the `uint32_t` argument split across the `offset` (low 16 bits via
`& 0xffff`) and `infoOffset` (high bits via `>> 16`) bit-fields, each store
truncated to the field's 25-bit width. -/
def SmallFuncHeader.setLargeHeaderOffset (s : SmallFuncHeader)
    (largeHeaderOffset : Nat) : SmallFuncHeader :=
  { s with
    flags := { s.flags with overflowed := true }
    offset := ((largeHeaderOffset % 2 ^ 32) &&& 0xffff) % 2 ^ 25
    infoOffset := ((largeHeaderOffset % 2 ^ 32) >>> 16) % 2 ^ 25 }

/-- `SmallFuncHeader::getLargeHeaderOffset`: `(infoOffset << 16) | offset`
in `uint32_t` arithmetic. -/
def SmallFuncHeader.getLargeHeaderOffset (s : SmallFuncHeader) : Nat :=
  ((s.infoOffset <<< 16) % 2 ^ 32) ||| s.offset

/-- `SmallFuncHeader::SmallFuncHeader(const FunctionHeader &large)`: zero the
record, copy the flags, then check each field against its bit width in
declaration order; on the first field with `large.name > (1 << bits) - 1`,
call `setLargeHeaderOffset(large.infoOffset)` and return (fields already
copied keep their values); otherwise copy every field. -/
def SmallFuncHeader.ofLarge (large : FunctionHeader) : SmallFuncHeader :=
  if large.offset > 2 ^ 25 - 1 then
    SmallFuncHeader.setLargeHeaderOffset
      ⟨0, 0, 0, 0, 0, 0, 0, 0, 0, large.flags⟩ large.infoOffset
  else if large.paramCount > 2 ^ 7 - 1 then
    SmallFuncHeader.setLargeHeaderOffset
      ⟨large.offset % 2 ^ 25, 0, 0, 0, 0, 0, 0, 0, 0, large.flags⟩
      large.infoOffset
  else if large.bytecodeSizeInBytes > 2 ^ 15 - 1 then
    SmallFuncHeader.setLargeHeaderOffset
      ⟨large.offset % 2 ^ 25, large.paramCount % 2 ^ 7, 0, 0, 0, 0, 0, 0, 0,
        large.flags⟩ large.infoOffset
  else if large.functionName > 2 ^ 17 - 1 then
    SmallFuncHeader.setLargeHeaderOffset
      ⟨large.offset % 2 ^ 25, large.paramCount % 2 ^ 7,
        large.bytecodeSizeInBytes % 2 ^ 15, 0, 0, 0, 0, 0, 0, large.flags⟩
      large.infoOffset
  else if large.infoOffset > 2 ^ 25 - 1 then
    SmallFuncHeader.setLargeHeaderOffset
      ⟨large.offset % 2 ^ 25, large.paramCount % 2 ^ 7,
        large.bytecodeSizeInBytes % 2 ^ 15, large.functionName % 2 ^ 17,
        0, 0, 0, 0, 0, large.flags⟩ large.infoOffset
  else if large.frameSize > 2 ^ 7 - 1 then
    SmallFuncHeader.setLargeHeaderOffset
      ⟨large.offset % 2 ^ 25, large.paramCount % 2 ^ 7,
        large.bytecodeSizeInBytes % 2 ^ 15, large.functionName % 2 ^ 17,
        large.infoOffset % 2 ^ 25, 0, 0, 0, 0, large.flags⟩ large.infoOffset
  else if large.environmentSize > 2 ^ 8 - 1 then
    SmallFuncHeader.setLargeHeaderOffset
      ⟨large.offset % 2 ^ 25, large.paramCount % 2 ^ 7,
        large.bytecodeSizeInBytes % 2 ^ 15, large.functionName % 2 ^ 17,
        large.infoOffset % 2 ^ 25, large.frameSize % 2 ^ 7, 0, 0, 0,
        large.flags⟩ large.infoOffset
  else if large.highestReadCacheIndex > 2 ^ 8 - 1 then
    SmallFuncHeader.setLargeHeaderOffset
      ⟨large.offset % 2 ^ 25, large.paramCount % 2 ^ 7,
        large.bytecodeSizeInBytes % 2 ^ 15, large.functionName % 2 ^ 17,
        large.infoOffset % 2 ^ 25, large.frameSize % 2 ^ 7,
        large.environmentSize % 2 ^ 8, 0, 0, large.flags⟩ large.infoOffset
  else if large.highestWriteCacheIndex > 2 ^ 8 - 1 then
    SmallFuncHeader.setLargeHeaderOffset
      ⟨large.offset % 2 ^ 25, large.paramCount % 2 ^ 7,
        large.bytecodeSizeInBytes % 2 ^ 15, large.functionName % 2 ^ 17,
        large.infoOffset % 2 ^ 25, large.frameSize % 2 ^ 7,
        large.environmentSize % 2 ^ 8, large.highestReadCacheIndex % 2 ^ 8,
        0, large.flags⟩ large.infoOffset
  else
    ⟨large.offset % 2 ^ 25, large.paramCount % 2 ^ 7,
      large.bytecodeSizeInBytes % 2 ^ 15, large.functionName % 2 ^ 17,
      large.infoOffset % 2 ^ 25, large.frameSize % 2 ^ 7,
      large.environmentSize % 2 ^ 8, large.highestReadCacheIndex % 2 ^ 8,
      large.highestWriteCacheIndex % 2 ^ 8, large.flags⟩

/-- Modelled from the spec: the logical string-table entry produced by the
compiler (`hermes/Support/StringTableEntry.h` is outside this header; the
spec describes it as an offset, a length, a UTF-16 flag and an identifier
flag, accessed here through `getOffset`, `getLength`, `isUTF16`,
`isIdentifier`). -/
structure StringTableEntry where
  offset : Nat
  length : Nat
  isUTF16 : Bool
  isIdentifier : Bool
deriving DecidableEq

/-- `struct SmallStringTableEntry`: 1-bit UTF16 flag, 1-bit identifier flag,
22-bit offset bit-field, 8-bit length bit-field. -/
structure SmallStringTableEntry where
  isUTF16 : Bool
  isIdentifier : Bool
  offset : Nat
  length : Nat
deriving DecidableEq

/-- `SmallStringTableEntry::INVALID_OFFSET = (1 << 22)`. -/
def SmallStringTableEntry.INVALID_OFFSET : Nat := 1 <<< 22

/-- `SmallStringTableEntry::INVALID_LENGTH = (1 << 8) - 1`. -/
def SmallStringTableEntry.INVALID_LENGTH : Nat := (1 <<< 8) - 1

/-- `SmallStringTableEntry::isOverflowed()`: `length == INVALID_LENGTH`. -/
def SmallStringTableEntry.isOverflowed (e : SmallStringTableEntry) : Bool :=
  e.length == SmallStringTableEntry.INVALID_LENGTH

/-- `SmallStringTableEntry::SmallStringTableEntry(entry, overflowOffset)`:
copy the two flag bits; if the entry's offset and length both fit their
bit-fields store them inline, else store `overflowOffset` in the offset
field and the `INVALID_LENGTH` sentinel in the length field (the code
asserts `overflowOffset < INVALID_OFFSET`).  Stores into the 22-bit and
8-bit fields truncate mod `2^22` and `2^8`. -/
def SmallStringTableEntry.ofEntry (entry : StringTableEntry)
    (overflowOffset : Nat) : SmallStringTableEntry :=
  if entry.offset < SmallStringTableEntry.INVALID_OFFSET ∧
      entry.length < SmallStringTableEntry.INVALID_LENGTH then
    { isUTF16 := entry.isUTF16, isIdentifier := entry.isIdentifier
      offset := entry.offset % 2 ^ 22, length := entry.length % 2 ^ 8 }
  else
    { isUTF16 := entry.isUTF16, isIdentifier := entry.isIdentifier
      offset := overflowOffset % 2 ^ 22
      length := SmallStringTableEntry.INVALID_LENGTH }

/-- Byte widths, in declaration order, of the packed `BytecodeFileHeader`
fields: magic (8), version (4), sourceHash (20), then fourteen 32-bit
counts/sizes/offsets (fileLength, globalCodeIndex, functionCount,
stringCount, identifierCount, stringTableBytes, stringStorageSize,
regExpCount, regExpStorageSize, arrayBufferSize, objKeyBufferSize,
objValueBufferSize, cjsModuleCount, debugInfoOffset), options (1) and
padding (7). -/
def bytecodeFileHeaderFieldBytes : List Nat :=
  [8, 4, 20, 4, 4, 4, 4, 4, 4, 4, 4, 4, 4, 4, 4, 4, 4, 1, 7]

/-- `sizeof(BytecodeFileHeader)` under `LLVM_PACKED`: the sum of the field
byte widths. -/
def bytecodeFileHeaderByteSize : Nat := bytecodeFileHeaderFieldBytes.sum

/-- Bit widths, in declaration order, of the `SmallFuncHeader` bit-fields
from `FUNC_HEADER_FIELDS`. -/
def funcHeaderFieldBits : List Nat := [25, 7, 15, 17, 25, 7, 8, 8, 8]

/-- `sizeof(SmallFuncHeader)` under `LLVM_PACKED`: the bit-fields pack
exactly (three 32-bit words, then three bytes), plus the one-byte flags. -/
def smallFuncHeaderByteSize : Nat := (funcHeaderFieldBits.sum + 8) / 8

/-- `struct BytecodeFileHeader` (packed): the fixed header at byte 0. -/
structure BytecodeFileHeader where
  magic : Nat
  version : Nat
  sourceHash : List Nat
  fileLength : Nat
  globalCodeIndex : Nat
  functionCount : Nat
  stringCount : Nat
  identifierCount : Nat
  stringTableBytes : Nat
  stringStorageSize : Nat
  regExpCount : Nat
  regExpStorageSize : Nat
  arrayBufferSize : Nat
  objKeyBufferSize : Nat
  objValueBufferSize : Nat
  cjsModuleCount : Int
  debugInfoOffset : Nat
  options : Nat
  padding : List Nat
deriving DecidableEq

/-- The `BytecodeFileHeader` constructor: copies every argument, copies the
20 source-hash bytes, and fills the 7 padding bytes with zero. -/
def BytecodeFileHeader.make (magic version : Nat) (sourceHash : List Nat)
    (fileLength globalCodeIndex functionCount stringCount identifierCount
      stringTableBytes stringStorageSize regExpCount regExpStorageSize
      arrayBufferSize objKeyBufferSize objValueBufferSize : Nat)
    (cjsModuleCount : Int) (debugInfoOffset options : Nat) :
    BytecodeFileHeader :=
  { magic := magic % 2 ^ 64
    version := version % 2 ^ 32
    sourceHash := sourceHash
    fileLength := fileLength % 2 ^ 32
    globalCodeIndex := globalCodeIndex % 2 ^ 32
    functionCount := functionCount % 2 ^ 32
    stringCount := stringCount % 2 ^ 32
    identifierCount := identifierCount % 2 ^ 32
    stringTableBytes := stringTableBytes % 2 ^ 32
    stringStorageSize := stringStorageSize % 2 ^ 32
    regExpCount := regExpCount % 2 ^ 32
    regExpStorageSize := regExpStorageSize % 2 ^ 32
    arrayBufferSize := arrayBufferSize % 2 ^ 32
    objKeyBufferSize := objKeyBufferSize % 2 ^ 32
    objValueBufferSize := objValueBufferSize % 2 ^ 32
    cjsModuleCount := cjsModuleCount
    debugInfoOffset := debugInfoOffset % 2 ^ 32
    options := options % 2 ^ 8
    padding := List.replicate 7 0 }

/-- Little-endian read of `n` bytes starting at `off` (byte at `off` is least
significant).  Out-of-range indices default to 0; every use below is guarded
by a bounds check. -/
def readLE (bytes : List Nat) (off : Nat) : Nat → Nat
  | 0 => 0
  | n + 1 => bytes.getD off 0 + 256 * readLE bytes (off + 1) n

/-- Interpret a 32-bit unsigned value as the signed `int32_t` it encodes. -/
def asInt32 (v : Nat) : Int :=
  if v < 2 ^ 31 then (v : Int) else (v : Int) - 2 ^ 32

/-- Modelled from the spec: the family of `FormatError` sub-reasons produced
by the population engine (`populateFromBuffer` is declared in this header but
defined elsewhere).  `oobRead` is an instrumentation value marking a read
past the end of the supplied buffer; a memory-safe parse never produces it. -/
inductive FormatError where
  | magicMismatch
  | versionMismatch
  | truncatedHeader
  | truncatedSection (name : String)
  | oobRead
deriving DecidableEq

/-- A bounded, non-owning view over a byte range of the buffer: start offset
and byte length. -/
structure SpanView where
  start : Nat
  byteLen : Nat
deriving DecidableEq

/-- Read the packed `BytecodeFileHeader` fields from the start of the buffer
at their declared offsets (magic 0, version 8, sourceHash 12, then the
fourteen 32-bit fields from 32, options 88). -/
def readHeader (bytes : List Nat) : BytecodeFileHeader :=
  { magic := readLE bytes 0 8
    version := readLE bytes 8 4
    sourceHash := (bytes.drop 12).take 20
    fileLength := readLE bytes 32 4
    globalCodeIndex := readLE bytes 36 4
    functionCount := readLE bytes 40 4
    stringCount := readLE bytes 44 4
    identifierCount := readLE bytes 48 4
    stringTableBytes := readLE bytes 52 4
    stringStorageSize := readLE bytes 56 4
    regExpCount := readLE bytes 60 4
    regExpStorageSize := readLE bytes 64 4
    arrayBufferSize := readLE bytes 68 4
    objKeyBufferSize := readLE bytes 72 4
    objValueBufferSize := readLE bytes 76 4
    cjsModuleCount := asInt32 (readLE bytes 80 4)
    debugInfoOffset := readLE bytes 84 4
    options := readLE bytes 88 1
    padding := ((bytes.drop 89).take 7) }

/-- The single header-sized access the parser performs (the C++ code casts
the buffer start to `const BytecodeFileHeader *`): guarded so that reading a
buffer shorter than the header is flagged as an out-of-bounds read. -/
def readHeaderChecked (bytes : List Nat) :
    Except FormatError BytecodeFileHeader :=
  if bytecodeFileHeaderByteSize ≤ bytes.length then
    .ok (readHeader bytes)
  else
    .error FormatError.oobRead

/-- Modelled from the spec: the parsed, borrowed view the population engine
returns.  Every section is a bounded `SpanView`; exactly one of the two
module-table views is populated, selected by the sign of `cjsModuleCount`. -/
structure BytecodeFileFields where
  header : BytecodeFileHeader
  functionHeaders : SpanView
  stringTableEntries : SpanView
  identifierHashes : SpanView
  stringTableOverflowEntries : SpanView
  stringStorage : SpanView
  arrayBuffer : SpanView
  objKeyBuffer : SpanView
  objValueBuffer : SpanView
  regExpTable : SpanView
  regExpStorage : SpanView
  cjsModuleTable : Option SpanView
  cjsModuleTableStatic : Option SpanView
deriving DecidableEq

/-- Modelled from the spec: carve the next section of `size` bytes out of
the buffer at `cursor`; fail with a truncation error for that section when
the extent does not lie within the buffer.  Returns the view and the
advanced cursor.  No byte is read. -/
def takeSection (len cursor size : Nat) (name : String) :
    Except FormatError (SpanView × Nat) :=
  if cursor + size ≤ len then
    .ok (⟨cursor, size⟩, cursor + size)
  else
    .error (FormatError.truncatedSection name)

/-- Modelled from the spec: `BytecodeFileFields::populateFromBuffer`, whose
definition is outside this header.  One forward pass: reject a buffer
shorter than the header with a truncation error; read the header; reject a
magic mismatch, then a version mismatch, before interpreting anything else;
then walk the sections in canonical order (function headers, string table,
identifier hashes, string overflow entries, string storage, array buffer,
object key buffer, object value buffer, regexp table, regexp storage,
module table), bounds-checking each declared extent; the sign of
`cjsModuleCount` selects which module-table view is populated (negative:
resolved, flat 32-bit indices; non-negative: (moduleId, functionIndex)
pairs). -/
def populateFromBuffer (bytes : List Nat) (form : BytecodeForm) :
    Except FormatError BytecodeFileFields :=
  if bytes.length < bytecodeFileHeaderByteSize then
    .error FormatError.truncatedHeader
  else
  Except.bind (readHeaderChecked bytes) fun hdr =>
  if hdr.magic ≠ expectedMagic form then
    .error FormatError.magicMismatch
  else if hdr.version ≠ BYTECODE_VERSION then
    .error FormatError.versionMismatch
  else
  Except.bind (takeSection bytes.length bytecodeFileHeaderByteSize
    (hdr.functionCount * smallFuncHeaderByteSize) "function headers") fun p1 =>
  Except.bind (takeSection bytes.length p1.2
    (hdr.stringCount * 4) "string table") fun p2 =>
  Except.bind (takeSection bytes.length p2.2
    (hdr.identifierCount * 4) "identifier hashes") fun p3 =>
  Except.bind (takeSection bytes.length p3.2
    (hdr.stringTableBytes - hdr.stringCount * 4) "string overflow entries") fun p4 =>
  Except.bind (takeSection bytes.length p4.2
    hdr.stringStorageSize "string storage") fun p5 =>
  Except.bind (takeSection bytes.length p5.2
    hdr.arrayBufferSize "array buffer") fun p6 =>
  Except.bind (takeSection bytes.length p6.2
    hdr.objKeyBufferSize "object key buffer") fun p7 =>
  Except.bind (takeSection bytes.length p7.2
    hdr.objValueBufferSize "object value buffer") fun p8 =>
  Except.bind (takeSection bytes.length p8.2
    (hdr.regExpCount * 8) "regexp table") fun p9 =>
  Except.bind (takeSection bytes.length p9.2
    hdr.regExpStorageSize "regexp storage") fun p10 =>
  if hdr.cjsModuleCount < 0 then
    Except.bind (takeSection bytes.length p10.2
      (hdr.cjsModuleCount.natAbs * 4) "cjs module table") fun pm =>
    .ok { header := hdr, functionHeaders := p1.1, stringTableEntries := p2.1
          identifierHashes := p3.1, stringTableOverflowEntries := p4.1
          stringStorage := p5.1, arrayBuffer := p6.1, objKeyBuffer := p7.1
          objValueBuffer := p8.1, regExpTable := p9.1, regExpStorage := p10.1
          cjsModuleTable := none, cjsModuleTableStatic := some pm.1 }
  else
    Except.bind (takeSection bytes.length p10.2
      (hdr.cjsModuleCount.natAbs * 8) "cjs module table") fun pm =>
    .ok { header := hdr, functionHeaders := p1.1, stringTableEntries := p2.1
          identifierHashes := p3.1, stringTableOverflowEntries := p4.1
          stringStorage := p5.1, arrayBuffer := p6.1, objKeyBuffer := p7.1
          objValueBuffer := p8.1, regExpTable := p9.1, regExpStorage := p10.1
          cjsModuleTable := some pm.1, cjsModuleTableStatic := none }

/-- A minimal well-formed 96-byte buffer: Execution magic (little-endian),
version 41, every count and size zero. -/
def demoBuf : List Nat :=
  [0xC6, 0x1F, 0xBC, 0x03, 0xC1, 0x03, 0x19, 0x1F, 41, 0, 0, 0]
    ++ List.replicate 84 0

/-- The parsed view of `demoBuf`: header with Execution magic and version
41, every section an empty span at offset 96, and (since `cjsModuleCount`
is 0, non-negative) the unresolved module-table view populated. -/
def demoFields : BytecodeFileFields :=
  { header :=
      { magic := MAGIC, version := 41, sourceHash := List.replicate 20 0
        fileLength := 0, globalCodeIndex := 0, functionCount := 0
        stringCount := 0, identifierCount := 0, stringTableBytes := 0
        stringStorageSize := 0, regExpCount := 0, regExpStorageSize := 0
        arrayBufferSize := 0, objKeyBufferSize := 0, objValueBufferSize := 0
        cjsModuleCount := 0, debugInfoOffset := 0, options := 0
        padding := List.replicate 7 0 }
    functionHeaders := ⟨96, 0⟩, stringTableEntries := ⟨96, 0⟩
    identifierHashes := ⟨96, 0⟩, stringTableOverflowEntries := ⟨96, 0⟩
    stringStorage := ⟨96, 0⟩, arrayBuffer := ⟨96, 0⟩, objKeyBuffer := ⟨96, 0⟩
    objValueBuffer := ⟨96, 0⟩, regExpTable := ⟨96, 0⟩, regExpStorage := ⟨96, 0⟩
    cjsModuleTable := some ⟨96, 0⟩, cjsModuleTableStatic := none }

/-! ### Helper lemmas -/

theorem bytecodeFileHeaderByteSize_eq : bytecodeFileHeaderByteSize = 96 := by
  decide

theorem smallFuncHeaderByteSize_eq : smallFuncHeaderByteSize = 16 := by
  decide

/-- Splitting a 32-bit value into low 16 bits and high bits and rejoining it
by shift-and-or reproduces the value mod `2^32`. -/
theorem largeHeaderOffset_roundTrip (s : SmallFuncHeader) (x : Nat) :
    (s.setLargeHeaderOffset x).getLargeHeaderOffset = x % 2 ^ 32 := by
  simp only [SmallFuncHeader.setLargeHeaderOffset,
    SmallFuncHeader.getLargeHeaderOffset]
  have hy : x % 2 ^ 32 < 2 ^ 32 := Nat.mod_lt _ (by norm_num)
  have hand : x % 2 ^ 32 &&& 0xffff = x % 2 ^ 32 % 2 ^ 16 := by
    have h := Nat.and_pow_two_sub_one_eq_mod (x % 2 ^ 32) 16
    norm_num at h
    norm_num [h]
  have hmod16 : x % 2 ^ 32 % 2 ^ 16 < 2 ^ 16 := Nat.mod_lt _ (by norm_num)
  have hshr := Nat.shiftRight_eq_div_pow (x % 2 ^ 32) 16
  have hdiv : x % 2 ^ 32 / 2 ^ 16 < 2 ^ 16 :=
    Nat.div_lt_of_lt_mul (by norm_num at hy ⊢; omega)
  rw [hand, hshr, Nat.mod_eq_of_lt (lt_trans hmod16 (by norm_num)),
    Nat.mod_eq_of_lt (lt_trans hdiv (by norm_num)), Nat.shiftLeft_eq,
    Nat.mod_eq_of_lt (lt_of_le_of_lt (Nat.div_mul_le_self _ _) hy),
    Nat.mul_comm (x % 2 ^ 32 / 2 ^ 16) (2 ^ 16),
    ← Nat.mul_add_lt_is_or hmod16, Nat.div_add_mod]

/-- `setLargeHeaderOffset` always sets the overflowed flag and leaves the
other flag bits alone. -/
theorem setLargeHeaderOffset_flags (s : SmallFuncHeader) (x : Nat) :
    (s.setLargeHeaderOffset x).flags = { s.flags with overflowed := true } :=
  rfl

/-- C1: for every logical `FunctionHeader` whose overflowed flag is clear and
whose every field is at most `2^w - 1` for that field's compact bit width
`w`, the constructed `SmallFuncHeader` has its overflowed flag clear, carries
the same flags, and every compact field equals the corresponding field of
the original. -/
theorem smallFuncHeader_inline_roundTrip (large : FunctionHeader)
    (hov : large.flags.overflowed = false)
    (h1 : large.offset ≤ 2 ^ 25 - 1)
    (h2 : large.paramCount ≤ 2 ^ 7 - 1)
    (h3 : large.bytecodeSizeInBytes ≤ 2 ^ 15 - 1)
    (h4 : large.functionName ≤ 2 ^ 17 - 1)
    (h5 : large.infoOffset ≤ 2 ^ 25 - 1)
    (h6 : large.frameSize ≤ 2 ^ 7 - 1)
    (h7 : large.environmentSize ≤ 2 ^ 8 - 1)
    (h8 : large.highestReadCacheIndex ≤ 2 ^ 8 - 1)
    (h9 : large.highestWriteCacheIndex ≤ 2 ^ 8 - 1) :
    (SmallFuncHeader.ofLarge large).flags.overflowed = false ∧
    (SmallFuncHeader.ofLarge large).flags = large.flags ∧
    (SmallFuncHeader.ofLarge large).offset = large.offset ∧
    (SmallFuncHeader.ofLarge large).paramCount = large.paramCount ∧
    (SmallFuncHeader.ofLarge large).bytecodeSizeInBytes
      = large.bytecodeSizeInBytes ∧
    (SmallFuncHeader.ofLarge large).functionName = large.functionName ∧
    (SmallFuncHeader.ofLarge large).infoOffset = large.infoOffset ∧
    (SmallFuncHeader.ofLarge large).frameSize = large.frameSize ∧
    (SmallFuncHeader.ofLarge large).environmentSize
      = large.environmentSize ∧
    (SmallFuncHeader.ofLarge large).highestReadCacheIndex
      = large.highestReadCacheIndex ∧
    (SmallFuncHeader.ofLarge large).highestWriteCacheIndex
      = large.highestWriteCacheIndex := by
  simp only [SmallFuncHeader.ofLarge]
  rw [if_neg (Nat.not_lt.mpr h1), if_neg (Nat.not_lt.mpr h2),
    if_neg (Nat.not_lt.mpr h3), if_neg (Nat.not_lt.mpr h4),
    if_neg (Nat.not_lt.mpr h5), if_neg (Nat.not_lt.mpr h6),
    if_neg (Nat.not_lt.mpr h7), if_neg (Nat.not_lt.mpr h8),
    if_neg (Nat.not_lt.mpr h9)]
  refine ⟨hov, rfl, ?_, ?_, ?_, ?_, ?_, ?_, ?_, ?_, ?_⟩ <;>
    exact Nat.mod_eq_of_lt (by omega)

/-- C1 witness. -/
theorem smallFuncHeader_inline_roundTrip_witness :
    (SmallFuncHeader.ofLarge
      ⟨3, 4, 5, 6, 7, 2, 9, 10, 11, FunctionHeaderFlag.init⟩).offset = 3 :=
  (smallFuncHeader_inline_roundTrip
    ⟨3, 4, 5, 6, 7, 2, 9, 10, 11, FunctionHeaderFlag.init⟩
    (by decide) (by decide) (by decide) (by decide) (by decide) (by decide)
    (by decide) (by decide) (by decide) (by decide)).2.2.1

/-- C2: for every logical `FunctionHeader` with at least one field exceeding
its compact bit width, the constructed `SmallFuncHeader` has its overflowed
flag set and `getLargeHeaderOffset` returns exactly the logical header's
`infoOffset` (the value passed to `setLargeHeaderOffset`); and for every
32-bit `x`, rejoining the split fields reproduces `x` exactly
(`reconstruct(split(x)) = x`). -/
theorem smallFuncHeader_overflow_roundTrip :
    (∀ large : FunctionHeader, large.infoOffset < 2 ^ 32 →
      (2 ^ 25 - 1 < large.offset ∨ 2 ^ 7 - 1 < large.paramCount ∨
        2 ^ 15 - 1 < large.bytecodeSizeInBytes ∨
        2 ^ 17 - 1 < large.functionName ∨ 2 ^ 25 - 1 < large.infoOffset ∨
        2 ^ 7 - 1 < large.frameSize ∨ 2 ^ 8 - 1 < large.environmentSize ∨
        2 ^ 8 - 1 < large.highestReadCacheIndex ∨
        2 ^ 8 - 1 < large.highestWriteCacheIndex) →
      (SmallFuncHeader.ofLarge large).flags.overflowed = true ∧
      (SmallFuncHeader.ofLarge large).getLargeHeaderOffset
        = large.infoOffset) ∧
    (∀ (s : SmallFuncHeader) (x : Nat), x < 2 ^ 32 →
      (s.setLargeHeaderOffset x).getLargeHeaderOffset = x) := by
  constructor
  · intro large hinfo hover
    have hget : ∀ s : SmallFuncHeader,
        (s.setLargeHeaderOffset large.infoOffset).getLargeHeaderOffset
          = large.infoOffset := by
      intro s
      rw [largeHeaderOffset_roundTrip]
      exact Nat.mod_eq_of_lt hinfo
    simp only [SmallFuncHeader.ofLarge]
    by_cases hc1 : large.offset > 2 ^ 25 - 1
    · rw [if_pos hc1]
      exact ⟨rfl, hget _⟩
    rw [if_neg hc1]
    by_cases hc2 : large.paramCount > 2 ^ 7 - 1
    · rw [if_pos hc2]
      exact ⟨rfl, hget _⟩
    rw [if_neg hc2]
    by_cases hc3 : large.bytecodeSizeInBytes > 2 ^ 15 - 1
    · rw [if_pos hc3]
      exact ⟨rfl, hget _⟩
    rw [if_neg hc3]
    by_cases hc4 : large.functionName > 2 ^ 17 - 1
    · rw [if_pos hc4]
      exact ⟨rfl, hget _⟩
    rw [if_neg hc4]
    by_cases hc5 : large.infoOffset > 2 ^ 25 - 1
    · rw [if_pos hc5]
      exact ⟨rfl, hget _⟩
    rw [if_neg hc5]
    by_cases hc6 : large.frameSize > 2 ^ 7 - 1
    · rw [if_pos hc6]
      exact ⟨rfl, hget _⟩
    rw [if_neg hc6]
    by_cases hc7 : large.environmentSize > 2 ^ 8 - 1
    · rw [if_pos hc7]
      exact ⟨rfl, hget _⟩
    rw [if_neg hc7]
    by_cases hc8 : large.highestReadCacheIndex > 2 ^ 8 - 1
    · rw [if_pos hc8]
      exact ⟨rfl, hget _⟩
    rw [if_neg hc8]
    by_cases hc9 : large.highestWriteCacheIndex > 2 ^ 8 - 1
    · rw [if_pos hc9]
      exact ⟨rfl, hget _⟩
    tauto
  · intro s x hx
    rw [largeHeaderOffset_roundTrip]
    exact Nat.mod_eq_of_lt hx

/-- C2 witness. -/
theorem smallFuncHeader_overflow_roundTrip_witness :
    (SmallFuncHeader.ofLarge
      ⟨2 ^ 25, 0, 0, 0, 1234567, 0, 0, 0, 0,
        FunctionHeaderFlag.init⟩).getLargeHeaderOffset = 1234567 :=
  (smallFuncHeader_overflow_roundTrip.1
    ⟨2 ^ 25, 0, 0, 0, 1234567, 0, 0, 0, 0, FunctionHeaderFlag.init⟩
    (by decide) (Or.inl (by decide))).2

theorem INVALID_OFFSET_eq : SmallStringTableEntry.INVALID_OFFSET = 2 ^ 22 := by
  decide

theorem INVALID_LENGTH_eq : SmallStringTableEntry.INVALID_LENGTH = 2 ^ 8 - 1 := by
  decide

/-- `isOverflowed` is determined solely by the length sentinel. -/
theorem isOverflowed_iff_length (e : SmallStringTableEntry) :
    e.isOverflowed = true ↔ e.length = SmallStringTableEntry.INVALID_LENGTH := by
  simp [SmallStringTableEntry.isOverflowed]

/-- C3: an entry with offset `< 2^22` and length `< 2^8 - 1` is stored
inline and is not overflowed; an entry violating either bound gets the
length sentinel, the supplied overflow-table index as its offset, and is
overflowed; the two states are mutually exclusive, distinguished solely by
the length sentinel. -/
theorem smallStringTableEntry_encoding (entry : StringTableEntry)
    (overflowOffset : Nat) :
    (entry.offset < SmallStringTableEntry.INVALID_OFFSET ∧
        entry.length < SmallStringTableEntry.INVALID_LENGTH →
      (SmallStringTableEntry.ofEntry entry overflowOffset).offset
          = entry.offset ∧
      (SmallStringTableEntry.ofEntry entry overflowOffset).length
          = entry.length ∧
      (SmallStringTableEntry.ofEntry entry overflowOffset).isOverflowed
          = false) ∧
    (¬ (entry.offset < SmallStringTableEntry.INVALID_OFFSET ∧
        entry.length < SmallStringTableEntry.INVALID_LENGTH) →
      (SmallStringTableEntry.ofEntry entry overflowOffset).length
          = SmallStringTableEntry.INVALID_LENGTH ∧
      (overflowOffset < SmallStringTableEntry.INVALID_OFFSET →
        (SmallStringTableEntry.ofEntry entry overflowOffset).offset
          = overflowOffset) ∧
      (SmallStringTableEntry.ofEntry entry overflowOffset).isOverflowed
          = true) ∧
    ((SmallStringTableEntry.ofEntry entry overflowOffset).isOverflowed = true
      ↔ (SmallStringTableEntry.ofEntry entry overflowOffset).length
          = SmallStringTableEntry.INVALID_LENGTH) := by
  rw [INVALID_OFFSET_eq, INVALID_LENGTH_eq]
  simp only [SmallStringTableEntry.ofEntry, INVALID_OFFSET_eq,
    INVALID_LENGTH_eq]
  by_cases h : entry.offset < 2 ^ 22 ∧ entry.length < 2 ^ 8 - 1
  · rw [if_pos h]
    refine ⟨fun _ => ⟨?_, ?_, ?_⟩, fun h' => absurd h h', ?_⟩
    · show entry.offset % 2 ^ 22 = entry.offset
      exact Nat.mod_eq_of_lt h.1
    · show entry.length % 2 ^ 8 = entry.length
      exact Nat.mod_eq_of_lt (by omega)
    · simp only [SmallStringTableEntry.isOverflowed, INVALID_LENGTH_eq,
        beq_eq_false_iff_ne, ne_eq]
      omega
    · rw [isOverflowed_iff_length, INVALID_LENGTH_eq]
  · rw [if_neg h]
    refine ⟨fun h' => absurd h' h, fun _ => ⟨rfl, ?_, rfl⟩, ?_⟩
    · intro hpre
      show overflowOffset % 2 ^ 22 = overflowOffset
      exact Nat.mod_eq_of_lt hpre
    · rw [isOverflowed_iff_length, INVALID_LENGTH_eq]

/-- C3 witness. -/
theorem smallStringTableEntry_encoding_witness :
    (SmallStringTableEntry.ofEntry ⟨5, 7, false, true⟩ 0).offset = 5 :=
  ((smallStringTableEntry_encoding ⟨5, 7, false, true⟩ 0).1
    ⟨by decide, by decide⟩).1

/-- C9: given the asserted precondition that the supplied overflow-table
index is below `2^22`, the compact entry's 22-bit offset field never holds
the reserved value `2^22`, and reading back the offset of an overflowed
entry yields exactly the supplied overflow index. -/
theorem smallStringTableEntry_overflow_index (entry : StringTableEntry)
    (overflowOffset : Nat)
    (hpre : overflowOffset < SmallStringTableEntry.INVALID_OFFSET) :
    (SmallStringTableEntry.ofEntry entry overflowOffset).offset
        ≠ SmallStringTableEntry.INVALID_OFFSET ∧
    ((SmallStringTableEntry.ofEntry entry overflowOffset).isOverflowed = true →
      (SmallStringTableEntry.ofEntry entry overflowOffset).offset
        = overflowOffset) := by
  rw [INVALID_OFFSET_eq] at hpre ⊢
  simp only [SmallStringTableEntry.ofEntry, INVALID_OFFSET_eq,
    INVALID_LENGTH_eq]
  by_cases h : entry.offset < 2 ^ 22 ∧ entry.length < 2 ^ 8 - 1
  · rw [if_pos h]
    constructor
    · show entry.offset % 2 ^ 22 ≠ 2 ^ 22
      omega
    · intro hov
      rw [isOverflowed_iff_length, INVALID_LENGTH_eq] at hov
      exfalso
      have hlen : entry.length % 2 ^ 8 = 2 ^ 8 - 1 := hov
      omega
  · rw [if_neg h]
    constructor
    · show overflowOffset % 2 ^ 22 ≠ 2 ^ 22
      omega
    · intro _
      show overflowOffset % 2 ^ 22 = overflowOffset
      exact Nat.mod_eq_of_lt hpre

/-- C9 witness. -/
theorem smallStringTableEntry_overflow_index_witness :
    (SmallStringTableEntry.ofEntry ⟨2 ^ 22, 0, false, false⟩ 3).offset
      ≠ SmallStringTableEntry.INVALID_OFFSET :=
  (smallStringTableEntry_overflow_index ⟨2 ^ 22, 0, false, false⟩ 3
    (by decide)).1

/-- Either the compact header is overflowed and its rejoined offset is the
logical header's `infoOffset` mod `2^32`, or it is the verbatim copy of
every field (truncated to the field widths) with the original flags. -/
theorem ofLarge_overflow_or_inline (large : FunctionHeader) :
    ((SmallFuncHeader.ofLarge large).flags.overflowed = true ∧
      (SmallFuncHeader.ofLarge large).getLargeHeaderOffset
        = large.infoOffset % 2 ^ 32) ∨
    SmallFuncHeader.ofLarge large =
      ⟨large.offset % 2 ^ 25, large.paramCount % 2 ^ 7,
        large.bytecodeSizeInBytes % 2 ^ 15, large.functionName % 2 ^ 17,
        large.infoOffset % 2 ^ 25, large.frameSize % 2 ^ 7,
        large.environmentSize % 2 ^ 8, large.highestReadCacheIndex % 2 ^ 8,
        large.highestWriteCacheIndex % 2 ^ 8, large.flags⟩ := by
  simp only [SmallFuncHeader.ofLarge]
  by_cases hc1 : large.offset > 2 ^ 25 - 1
  · rw [if_pos hc1]
    exact Or.inl ⟨rfl, largeHeaderOffset_roundTrip _ _⟩
  rw [if_neg hc1]
  by_cases hc2 : large.paramCount > 2 ^ 7 - 1
  · rw [if_pos hc2]
    exact Or.inl ⟨rfl, largeHeaderOffset_roundTrip _ _⟩
  rw [if_neg hc2]
  by_cases hc3 : large.bytecodeSizeInBytes > 2 ^ 15 - 1
  · rw [if_pos hc3]
    exact Or.inl ⟨rfl, largeHeaderOffset_roundTrip _ _⟩
  rw [if_neg hc3]
  by_cases hc4 : large.functionName > 2 ^ 17 - 1
  · rw [if_pos hc4]
    exact Or.inl ⟨rfl, largeHeaderOffset_roundTrip _ _⟩
  rw [if_neg hc4]
  by_cases hc5 : large.infoOffset > 2 ^ 25 - 1
  · rw [if_pos hc5]
    exact Or.inl ⟨rfl, largeHeaderOffset_roundTrip _ _⟩
  rw [if_neg hc5]
  by_cases hc6 : large.frameSize > 2 ^ 7 - 1
  · rw [if_pos hc6]
    exact Or.inl ⟨rfl, largeHeaderOffset_roundTrip _ _⟩
  rw [if_neg hc6]
  by_cases hc7 : large.environmentSize > 2 ^ 8 - 1
  · rw [if_pos hc7]
    exact Or.inl ⟨rfl, largeHeaderOffset_roundTrip _ _⟩
  rw [if_neg hc7]
  by_cases hc8 : large.highestReadCacheIndex > 2 ^ 8 - 1
  · rw [if_pos hc8]
    exact Or.inl ⟨rfl, largeHeaderOffset_roundTrip _ _⟩
  rw [if_neg hc8]
  by_cases hc9 : large.highestWriteCacheIndex > 2 ^ 8 - 1
  · rw [if_pos hc9]
    exact Or.inl ⟨rfl, largeHeaderOffset_roundTrip _ _⟩
  rw [if_neg hc9]
  exact Or.inr rfl

/-- C10: every `FunctionHeader` created through its public constructor has
offset 0, infoOffset 0, and all four flag bits clear; consequently
compacting such a freshly constructed header that overflows encodes
large-header offset 0. -/
theorem functionHeader_make_defaults
    (size paramCount frameSize envSize functionNameID hiR hiW : Nat) :
    (FunctionHeader.make size paramCount frameSize envSize functionNameID
      hiR hiW).offset = 0 ∧
    (FunctionHeader.make size paramCount frameSize envSize functionNameID
      hiR hiW).infoOffset = 0 ∧
    (FunctionHeader.make size paramCount frameSize envSize functionNameID
      hiR hiW).flags.strictMode = false ∧
    (FunctionHeader.make size paramCount frameSize envSize functionNameID
      hiR hiW).flags.hasExceptionHandler = false ∧
    (FunctionHeader.make size paramCount frameSize envSize functionNameID
      hiR hiW).flags.hasDebugInfo = false ∧
    (FunctionHeader.make size paramCount frameSize envSize functionNameID
      hiR hiW).flags.overflowed = false ∧
    ((SmallFuncHeader.ofLarge (FunctionHeader.make size paramCount frameSize
        envSize functionNameID hiR hiW)).flags.overflowed = true →
      (SmallFuncHeader.ofLarge (FunctionHeader.make size paramCount frameSize
        envSize functionNameID hiR hiW)).getLargeHeaderOffset = 0) := by
  refine ⟨rfl, rfl, rfl, rfl, rfl, rfl, ?_⟩
  intro hov
  rcases ofLarge_overflow_or_inline (FunctionHeader.make size paramCount
    frameSize envSize functionNameID hiR hiW) with ⟨_, hget⟩ | heq
  · rw [hget]
    simp [FunctionHeader.make]
  · rw [heq] at hov
    simp only [FunctionHeader.make, FunctionHeaderFlag.init] at hov
    exact Bool.noConfusion hov

/-- C10 witness: a freshly constructed header whose bytecode size overflows
the 15-bit compact field encodes large-header offset 0. -/
theorem functionHeader_make_defaults_witness :
    (SmallFuncHeader.ofLarge
      (FunctionHeader.make 32768 0 0 0 0 0 0)).getLargeHeaderOffset = 0 :=
  (functionHeader_make_defaults 32768 0 0 0 0 0 0).2.2.2.2.2.2 (by decide)

/-- C6: the serialized `BytecodeFileHeader` size is an exact multiple of 32
bytes, the `SmallFuncHeader` size is an exact divisor of 32 bytes, and every
header produced by the constructor has all 7 padding bytes zero. -/
theorem headerLayout_invariants :
    bytecodeFileHeaderByteSize % 32 = 0 ∧
    32 % smallFuncHeaderByteSize = 0 ∧
    ∀ (magic version : Nat) (sourceHash : List Nat)
      (fileLength globalCodeIndex functionCount stringCount identifierCount
        stringTableBytes stringStorageSize regExpCount regExpStorageSize
        arrayBufferSize objKeyBufferSize objValueBufferSize : Nat)
      (cjsModuleCount : Int) (debugInfoOffset options : Nat),
      (BytecodeFileHeader.make magic version sourceHash fileLength
        globalCodeIndex functionCount stringCount identifierCount
        stringTableBytes stringStorageSize regExpCount regExpStorageSize
        arrayBufferSize objKeyBufferSize objValueBufferSize cjsModuleCount
        debugInfoOffset options).padding = List.replicate 7 0 :=
  ⟨by decide, by decide,
    fun _ _ _ _ _ _ _ _ _ _ _ _ _ _ _ _ _ _ => rfl⟩

/-- C6 witness. -/
theorem headerLayout_invariants_witness :
    (BytecodeFileHeader.make 0 0 [] 0 0 0 0 0 0 0 0 0 0 0 0 0 0 0).padding
      = List.replicate 7 0 :=
  headerLayout_invariants.2.2 0 0 [] 0 0 0 0 0 0 0 0 0 0 0 0 0 0 0

/-- C7: `DELTA_MAGIC` is the bitwise complement of the 64-bit `MAGIC`, the
two values are distinct 64-bit values, and exactly one of them is the valid
magic for a given expected form. -/
theorem deltaMagic_complement :
    DELTA_MAGIC = 2 ^ 64 - 1 - MAGIC ∧
    MAGIC ≠ DELTA_MAGIC ∧
    MAGIC < 2 ^ 64 ∧ DELTA_MAGIC < 2 ^ 64 ∧
    ∀ form, (expectedMagic form = MAGIC ↔ form = BytecodeForm.Execution) ∧
      (expectedMagic form = DELTA_MAGIC ↔ form = BytecodeForm.Delta) := by
  refine ⟨by decide, by decide, by decide, by decide, ?_⟩
  intro form
  cases form
  · exact ⟨⟨fun _ => rfl, fun _ => rfl⟩,
      ⟨fun h => absurd h (by decide), fun h => BytecodeForm.noConfusion h⟩⟩
  · exact ⟨⟨fun h => absurd h (by decide), fun h => BytecodeForm.noConfusion h⟩,
      ⟨fun _ => rfl, fun _ => rfl⟩⟩

/-- C7 witness. -/
theorem deltaMagic_complement_witness :
    expectedMagic BytecodeForm.Delta = DELTA_MAGIC :=
  ((deltaMagic_complement.2.2.2.2 BytecodeForm.Delta).2).mpr rfl

/-- A buffer at least header-sized that fails the magic comparison is
rejected with a magic-mismatch error. -/
theorem populate_magicMismatch_of_ne (bytes : List Nat) (form : BytecodeForm)
    (hlen : bytecodeFileHeaderByteSize ≤ bytes.length)
    (hmagic : readLE bytes 0 8 ≠ expectedMagic form) :
    populateFromBuffer bytes form = .error FormatError.magicMismatch := by
  have hm : (readHeader bytes).magic = readLE bytes 0 8 := rfl
  unfold populateFromBuffer readHeaderChecked
  rw [if_neg (Nat.not_lt.mpr hlen), if_pos hlen]
  simp only [Except.bind]
  rw [if_pos (show (readHeader bytes).magic ≠ expectedMagic form by
    rw [hm]; exact hmagic)]

/-- A buffer at least header-sized whose magic matches but whose version
does not is rejected with a version-mismatch error. -/
theorem populate_versionMismatch_of_ne (bytes : List Nat)
    (form : BytecodeForm)
    (hlen : bytecodeFileHeaderByteSize ≤ bytes.length)
    (hmagic : readLE bytes 0 8 = expectedMagic form)
    (hver : readLE bytes 8 4 ≠ BYTECODE_VERSION) :
    populateFromBuffer bytes form = .error FormatError.versionMismatch := by
  have hm : (readHeader bytes).magic = readLE bytes 0 8 := rfl
  have hv : (readHeader bytes).version = readLE bytes 8 4 := rfl
  unfold populateFromBuffer readHeaderChecked
  rw [if_neg (Nat.not_lt.mpr hlen), if_pos hlen]
  simp only [Except.bind]
  rw [if_neg (show ¬ (readHeader bytes).magic ≠ expectedMagic form by
    rw [hm, hmagic]; exact fun hc => hc rfl)]
  rw [if_pos (show (readHeader bytes).version ≠ BYTECODE_VERSION by
    rw [hv]; exact hver)]

/-- C4: a header-sized buffer whose magic does not match the expected
form's magic is rejected with a magic-mismatch error, and one whose magic
matches but whose version differs from the implementation's bytecode
version is rejected with a version-mismatch error — before any section
view is constructed; in particular a buffer bearing the Execution magic
parsed as Delta form (or vice versa) always fails with a magic mismatch. -/
theorem populate_magic_version_guard :
    (∀ (bytes : List Nat) (form : BytecodeForm),
      bytecodeFileHeaderByteSize ≤ bytes.length →
      readLE bytes 0 8 ≠ expectedMagic form →
      populateFromBuffer bytes form = .error FormatError.magicMismatch) ∧
    (∀ (bytes : List Nat) (form : BytecodeForm),
      bytecodeFileHeaderByteSize ≤ bytes.length →
      readLE bytes 0 8 = expectedMagic form →
      readLE bytes 8 4 ≠ BYTECODE_VERSION →
      populateFromBuffer bytes form = .error FormatError.versionMismatch) ∧
    (∀ bytes : List Nat, bytecodeFileHeaderByteSize ≤ bytes.length →
      readLE bytes 0 8 = MAGIC →
      populateFromBuffer bytes BytecodeForm.Delta
        = .error FormatError.magicMismatch) ∧
    (∀ bytes : List Nat, bytecodeFileHeaderByteSize ≤ bytes.length →
      readLE bytes 0 8 = DELTA_MAGIC →
      populateFromBuffer bytes BytecodeForm.Execution
        = .error FormatError.magicMismatch) :=
  ⟨populate_magicMismatch_of_ne, populate_versionMismatch_of_ne,
    fun bytes hlen hmag => populate_magicMismatch_of_ne bytes _ hlen
      (by rw [hmag]; decide),
    fun bytes hlen hmag => populate_magicMismatch_of_ne bytes _ hlen
      (by rw [hmag]; decide)⟩

/-- C4 witness. -/
theorem populate_magic_version_guard_witness :
    populateFromBuffer (List.replicate 96 0) BytecodeForm.Execution
      = .error FormatError.magicMismatch :=
  populate_magic_version_guard.1 (List.replicate 96 0) BytecodeForm.Execution
    (by decide) (by decide)

/-- Binding the result of `takeSection` can never surface the out-of-bounds
marker unless the continuation itself produces it. -/
theorem takeSection_bind_ne_oobRead (len c s : Nat) (name : String)
    (f : SpanView × Nat → Except FormatError BytecodeFileFields)
    (hf : ∀ p, f p ≠ .error FormatError.oobRead) :
    Except.bind (takeSection len c s name) f
      ≠ .error FormatError.oobRead := by
  unfold takeSection
  by_cases h : c + s ≤ len
  · rw [if_pos h]
    exact hf _
  · rw [if_neg h]
    simp [Except.bind]

/-- An error other than the out-of-bounds marker is not the out-of-bounds
marker. -/
theorem error_ne_oobRead {e : FormatError} (he : e ≠ FormatError.oobRead) :
    (Except.error e : Except FormatError BytecodeFileFields)
      ≠ .error FormatError.oobRead := by
  intro hc
  injection hc with h2
  exact he h2

/-- A buffer shorter than the header is rejected with a header-truncation
error. -/
theorem populate_short_buffer (bytes : List Nat) (form : BytecodeForm)
    (h : bytes.length < bytecodeFileHeaderByteSize) :
    populateFromBuffer bytes form = .error FormatError.truncatedHeader := by
  unfold populateFromBuffer
  rw [if_pos h]

/-- An intact header whose declared function-header-array size exceeds the
remaining bytes fails at the function-headers section. -/
theorem populate_functionHeaders_truncation (bytes : List Nat)
    (form : BytecodeForm)
    (hlen : bytecodeFileHeaderByteSize ≤ bytes.length)
    (hmagic : readLE bytes 0 8 = expectedMagic form)
    (hver : readLE bytes 8 4 = BYTECODE_VERSION)
    (hfh : bytes.length < bytecodeFileHeaderByteSize
      + readLE bytes 40 4 * smallFuncHeaderByteSize) :
    populateFromBuffer bytes form
      = .error (FormatError.truncatedSection "function headers") := by
  have hm : (readHeader bytes).magic = readLE bytes 0 8 := rfl
  have hv : (readHeader bytes).version = readLE bytes 8 4 := rfl
  have hf : (readHeader bytes).functionCount = readLE bytes 40 4 := rfl
  unfold populateFromBuffer readHeaderChecked
  rw [if_neg (Nat.not_lt.mpr hlen), if_pos hlen]
  simp only [Except.bind]
  rw [if_neg (show ¬ (readHeader bytes).magic ≠ expectedMagic form by
    rw [hm, hmagic]; exact fun hc => hc rfl)]
  rw [if_neg (show ¬ (readHeader bytes).version ≠ BYTECODE_VERSION by
    rw [hv, hver]; exact fun hc => hc rfl)]
  unfold takeSection
  rw [if_neg (show ¬ bytecodeFileHeaderByteSize
      + (readHeader bytes).functionCount * smallFuncHeaderByteSize
      ≤ bytes.length by rw [hf]; omega)]

set_option maxHeartbeats 1000000 in
/-- The population engine never surfaces the out-of-bounds read marker:
every primitive access is guarded by a bounds check. -/
theorem populate_no_oobRead (bytes : List Nat) (form : BytecodeForm) :
    populateFromBuffer bytes form ≠ .error FormatError.oobRead := by
  unfold populateFromBuffer readHeaderChecked
  by_cases h0 : bytes.length < bytecodeFileHeaderByteSize
  · rw [if_pos h0]
    exact error_ne_oobRead (by decide)
  rw [if_neg h0, if_pos (Nat.not_lt.mp h0)]
  simp only [Except.bind]
  by_cases hmag : (readHeader bytes).magic ≠ expectedMagic form
  · rw [if_pos hmag]
    exact error_ne_oobRead (by decide)
  rw [if_neg hmag]
  by_cases hver : (readHeader bytes).version ≠ BYTECODE_VERSION
  · rw [if_pos hver]
    exact error_ne_oobRead (by decide)
  rw [if_neg hver]
  refine takeSection_bind_ne_oobRead _ _ _ _ _ fun p1 => ?_
  refine takeSection_bind_ne_oobRead _ _ _ _ _ fun p2 => ?_
  refine takeSection_bind_ne_oobRead _ _ _ _ _ fun p3 => ?_
  refine takeSection_bind_ne_oobRead _ _ _ _ _ fun p4 => ?_
  refine takeSection_bind_ne_oobRead _ _ _ _ _ fun p5 => ?_
  refine takeSection_bind_ne_oobRead _ _ _ _ _ fun p6 => ?_
  refine takeSection_bind_ne_oobRead _ _ _ _ _ fun p7 => ?_
  refine takeSection_bind_ne_oobRead _ _ _ _ _ fun p8 => ?_
  refine takeSection_bind_ne_oobRead _ _ _ _ _ fun p9 => ?_
  refine takeSection_bind_ne_oobRead _ _ _ _ _ fun p10 => ?_
  by_cases hc : (readHeader bytes).cjsModuleCount < 0
  · rw [if_pos hc]
    refine takeSection_bind_ne_oobRead _ _ _ _ _ fun pm => ?_
    exact fun hc2 => Except.noConfusion hc2
  · rw [if_neg hc]
    refine takeSection_bind_ne_oobRead _ _ _ _ _ fun pm => ?_
    exact fun hc2 => Except.noConfusion hc2

/-- C5: a buffer shorter than the fixed header size is rejected with a
header-truncation error; a buffer with an intact header whose declared
function-header-array byte size exceeds the bytes remaining after the
header fails at that section; and no parse ever performs a read outside
the supplied buffer (the `oobRead` marker is unreachable). -/
theorem populate_truncation_guard :
    (∀ (bytes : List Nat) (form : BytecodeForm),
      bytes.length < bytecodeFileHeaderByteSize →
      populateFromBuffer bytes form = .error FormatError.truncatedHeader) ∧
    (∀ (bytes : List Nat) (form : BytecodeForm),
      bytecodeFileHeaderByteSize ≤ bytes.length →
      readLE bytes 0 8 = expectedMagic form →
      readLE bytes 8 4 = BYTECODE_VERSION →
      bytes.length < bytecodeFileHeaderByteSize
        + readLE bytes 40 4 * smallFuncHeaderByteSize →
      populateFromBuffer bytes form
        = .error (FormatError.truncatedSection "function headers")) ∧
    (∀ (bytes : List Nat) (form : BytecodeForm),
      populateFromBuffer bytes form ≠ .error FormatError.oobRead) :=
  ⟨populate_short_buffer, populate_functionHeaders_truncation,
    populate_no_oobRead⟩

/-- C5 witness. -/
theorem populate_truncation_guard_witness :
    populateFromBuffer [] BytecodeForm.Execution
      = .error FormatError.truncatedHeader :=
  populate_truncation_guard.1 [] BytecodeForm.Execution (by decide)

/-- Inverting a successful `takeSection` bind: the extent fits and the
continuation ran on the carved span. -/
theorem takeSection_bind_ok {len c s : Nat} {name : String}
    {f : SpanView × Nat → Except FormatError BytecodeFileFields}
    {r : BytecodeFileFields}
    (h : Except.bind (takeSection len c s name) f = .ok r) :
    c + s ≤ len ∧ f (⟨c, s⟩, c + s) = .ok r := by
  unfold takeSection at h
  by_cases hc : c + s ≤ len
  · rw [if_pos hc] at h
    simp only [Except.bind] at h
    exact ⟨hc, h⟩
  · rw [if_neg hc] at h
    simp [Except.bind] at h

set_option maxHeartbeats 1600000 in
/-- C8: on every successful parse, the sign of the header's
`cjsModuleCount` selects the module-table interpretation: negative means
the resolved view (flat 32-bit function indices, 4 bytes per entry) is
populated and the unresolved view is absent; non-negative means the
unresolved view ((moduleId, functionIndex) pairs, 8 bytes per entry) is
populated and the resolved view is absent. -/
theorem populate_moduleTable_sign (bytes : List Nat) (form : BytecodeForm)
    (f : BytecodeFileFields)
    (h : populateFromBuffer bytes form = .ok f) :
    (f.header.cjsModuleCount < 0 →
      ∃ s, f.cjsModuleTableStatic = some s ∧
        s.byteLen = f.header.cjsModuleCount.natAbs * 4 ∧
        f.cjsModuleTable = none) ∧
    (0 ≤ f.header.cjsModuleCount →
      ∃ s, f.cjsModuleTable = some s ∧
        s.byteLen = f.header.cjsModuleCount.natAbs * 8 ∧
        f.cjsModuleTableStatic = none) := by
  unfold populateFromBuffer readHeaderChecked at h
  by_cases h0 : bytes.length < bytecodeFileHeaderByteSize
  · rw [if_pos h0] at h
    cases h
  rw [if_neg h0, if_pos (Nat.not_lt.mp h0)] at h
  simp only [Except.bind] at h
  by_cases hmag : (readHeader bytes).magic ≠ expectedMagic form
  · rw [if_pos hmag] at h
    cases h
  rw [if_neg hmag] at h
  by_cases hver : (readHeader bytes).version ≠ BYTECODE_VERSION
  · rw [if_pos hver] at h
    cases h
  rw [if_neg hver] at h
  obtain ⟨-, h⟩ := takeSection_bind_ok h
  obtain ⟨-, h⟩ := takeSection_bind_ok h
  obtain ⟨-, h⟩ := takeSection_bind_ok h
  obtain ⟨-, h⟩ := takeSection_bind_ok h
  obtain ⟨-, h⟩ := takeSection_bind_ok h
  obtain ⟨-, h⟩ := takeSection_bind_ok h
  obtain ⟨-, h⟩ := takeSection_bind_ok h
  obtain ⟨-, h⟩ := takeSection_bind_ok h
  obtain ⟨-, h⟩ := takeSection_bind_ok h
  obtain ⟨-, h⟩ := takeSection_bind_ok h
  by_cases hsign : (readHeader bytes).cjsModuleCount < 0
  · rw [if_pos hsign] at h
    obtain ⟨-, h⟩ := takeSection_bind_ok h
    injection h with h
    subst h
    refine ⟨fun _ => ⟨_, rfl, rfl, rfl⟩, fun h0le => ?_⟩
    exact absurd h0le (Int.not_le.mpr hsign)
  · rw [if_neg hsign] at h
    obtain ⟨-, h⟩ := takeSection_bind_ok h
    injection h with h
    subst h
    refine ⟨fun hneg => ?_, fun _ => ⟨_, rfl, rfl, rfl⟩⟩
    exact absurd hneg hsign

/-- C8 witness: a successful parse of the minimal buffer, with
non-negative module count, populates the unresolved module-table view. -/
theorem populate_moduleTable_sign_witness :
    ∃ s, demoFields.cjsModuleTable = some s ∧
      s.byteLen = demoFields.header.cjsModuleCount.natAbs * 8 ∧
      demoFields.cjsModuleTableStatic = none :=
  (populate_moduleTable_sign demoBuf BytecodeForm.Execution demoFields
    rfl).2 (by decide)

end HermesBC
